import Mathlib

/-!
Verification development for the ProspecIA LGPD compliance engine.

The repository ships the frontend (TypeScript) consumers of the engine and
`docs/pii_detection_report.md`, which records the implemented regex registry,
the sensitivity levels and the report contract of the backend endpoints
`GET /ingestions/{id}/lgpd-report` and `GET /ingestions/{id}/pii`.  The
backend engine itself is not among the source files, so the detection,
masking, consent and scoring pipeline is modelled here: pattern matchers are
taken from the documented regex registry, and the remaining components follow
the specification's component design (§4) word for word.  Frontend logic
(`ConsentimentoViewer.isValid`, the `LGPDReport` consent rendering) is
embedded directly from the TypeScript source.
-/

namespace ProspecIA

/-- Sensitivity tier (`nivel_sensibilidade`) of a PII type: baixo / medio /
alto, as in the data model and `docs/pii_detection_report.md` §3. -/
inductive Tier where
  | baixo
  | medio
  | alto
deriving DecidableEq, Repr

/-- Consent status consumed by the scorer and report assembler:
valid / missing / revoked. -/
inductive ConsentStatus where
  | valid
  | missing
  | revoked
deriving DecidableEq, Repr

/-- Take exactly `n` leading decimal digits from a character list, returning
their values and the rest of the list; fails when a non-digit appears. -/
def takeDigits : Nat → List Char → Option (List Nat × List Char)
  | 0, cs => some ([], cs)
  | _ + 1, [] => none
  | n + 1, c :: cs =>
    if c.isDigit then
      match takeDigits n cs with
      | some (ds, rest) => some ((c.toNat - 48) :: ds, rest)
      | none => none
    else none

/-- Skip one optional occurrence of the character `ch` (the `\.?` / `-?`
parts of the documented patterns). -/
def skipOpt (ch : Char) : List Char → List Char
  | [] => []
  | c :: cs => if c = ch then cs else c :: cs

/-- The CPF shape from the implemented regex registry documented in
`docs/pii_detection_report.md`: `\b\d{3}\.?\d{3}\.?\d{3}-?\d{2}\b`, applied
to a whole field token.  Returns the 11 digits when the token matches. -/
def cpfDigits (s : String) : Option (List Nat) :=
  match takeDigits 3 s.toList with
  | none => none
  | some (d1, r1) =>
    match takeDigits 3 (skipOpt '.' r1) with
    | none => none
    | some (d2, r2) =>
      match takeDigits 3 (skipOpt '.' r2) with
      | none => none
      | some (d3, r3) =>
        match takeDigits 2 (skipOpt '-' r3) with
        | some (d4, []) => some (d1 ++ d2 ++ d3 ++ d4)
        | _ => none

/-- Shape-only CPF matcher: exactly the documented regex, no further
validation step (the registry in `docs/pii_detection_report.md` lists regex
patterns only). -/
def cpfShape (s : String) : Bool :=
  (cpfDigits s).isSome

/-- Weighted digit sum with decreasing weights `w, w-1, w-2, ...`, as used by
the standard CPF check-digit algorithm. -/
def weightedSum : List Nat → Nat → Nat
  | [], _ => 0
  | d :: ds, w => d * w + weightedSum ds (w - 1)

/-- One CPF check digit: remainder of the weighted sum modulo 11, mapped to
0 when below 2 and to `11 - r` otherwise. -/
def cpfDV (ds : List Nat) (w0 : Nat) : Nat :=
  let r := weightedSum ds w0 % 11
  if r < 2 then 0 else 11 - r

/-- Standard CPF checksum over 11 digits: the 10th digit must equal the check
digit of the first nine (weights 10..2) and the 11th the check digit of the
first ten (weights 11..2). -/
def cpfValidDigits (ds : List Nat) : Bool :=
  match ds with
  | [a, b, c, d, e, f, g, h, i, j, k] =>
    (j == cpfDV [a, b, c, d, e, f, g, h, i] 10) &&
      (k == cpfDV [a, b, c, d, e, f, g, h, i, j] 11)
  | _ => false

/-- Checksum validation of a CPF-shaped token: parse the 11 digits and check
the two verification digits. -/
def cpfChecksumValid (s : String) : Bool :=
  match cpfDigits s with
  | some ds => cpfValidDigits ds
  | none => false

/-- One entry of the configurable detector registry (spec §9: a tagged list
keyed by type identifier, each carrying its matching rule and sensitivity
tier as data). -/
structure RegistryEntry where
  name : String
  tier : Tier
  matcher : String → Bool

/-- One Entity Recognizer candidate: `(entity_class, span)` (the confidence
is not consumed by any property modelled here). -/
structure Entity where
  cls : String
  span : String
deriving DecidableEq, Repr

/-- Pattern Detector occurrence count of one registry entry over the decoded
fields of the payload (one candidate per matching field token). -/
def patternCount (e : RegistryEntry) (fields : List String) : Nat :=
  (fields.filter e.matcher).length

/-- Aggregator drop rule (spec §4.3): an Entity Recognizer candidate whose
span is fully covered by a Pattern Detector candidate is dropped, since
deterministic detectors take precedence on the same span. -/
def entityDropped (registry : List RegistryEntry) (ent : Entity) : Bool :=
  registry.any (fun e => e.matcher ent.span)

/-- Surviving Entity Recognizer occurrences attributed to one registry
entry. -/
def nerCount (registry : List RegistryEntry) (e : RegistryEntry)
    (ents : List Entity) : Nat :=
  (ents.filter (fun x => x.cls == e.name && !entityDropped registry x)).length

/-- Display-safe mask (spec §4.4): keep the first and last character and
replace the middle with a fixed symbol. -/
def maskValue (v : String) : String :=
  let cs := v.toList
  if cs.length ≤ 2 then v
  else String.mk (cs.take 1 ++ List.replicate (cs.length - 2) '*'
    ++ cs.drop (cs.length - 1))

/-- Fixed cap on the number of masked examples kept per type (spec §4.3). -/
def samplesCap : Nat := 5

/-- One `Detection` of the report data model: the `detected` boolean is a
structural field, present on every entry, `false` exactly when the
occurrence count is zero. -/
structure Detection where
  pii_type : String
  occurrence_count : Nat
  masked_samples : List String
  sensitivity_tier : Tier
  detected : Bool
deriving DecidableEq, Repr

/-- Modelled from the spec: the Detection Aggregator (§4.3) for a single
registry entry — pattern count plus surviving recognizer count, capped masked
samples, `detected` iff anything matched.  The backend aggregator is not
among the source files. -/
def aggregateOne (registry : List RegistryEntry) (fields : List String)
    (ents : List Entity) (e : RegistryEntry) : Detection :=
  let cnt := patternCount e fields + nerCount registry e ents
  { pii_type := e.name
    occurrence_count := cnt
    masked_samples := ((fields.filter e.matcher).map maskValue).take samplesCap
    sensitivity_tier := e.tier
    detected := decide (0 < cnt) }

/-- Modelled from the spec: the Detection Aggregator emits one `Detection`
per registry entry, in registry order, regardless of what was found
(§4.3). -/
def aggregate (registry : List RegistryEntry) (fields : List String)
    (ents : List Entity) : List Detection :=
  registry.map (aggregateOne registry fields ents)

/-- Modelled from the spec: per-instance penalty weight of a sensitivity
tier (§4.6 — high tier penalizes more per instance than low tier; the
literal values are a configuration surface per design note §9). -/
def tierWeight : Tier → ℚ
  | .alto => 10
  | .medio => 5
  | .baixo => 2

/-- Modelled from the spec: accumulated penalty for `n` instances of one
type, with diminishing marginal penalty per additional instance (§4.6): the
`(n+1)`-st instance adds `w / 2 ^ n`. -/
def typePenalty (w : ℚ) : Nat → ℚ
  | 0 => 0
  | n + 1 => typePenalty w n + w / 2 ^ n

/-- Total detection penalty of a report: sum of the per-type penalties. -/
def penaltySum : List Detection → ℚ
  | [] => 0
  | d :: ds =>
    typePenalty (tierWeight d.sensitivity_tier) d.occurrence_count
      + penaltySum ds

/-- Count of high-tier detected instances, driving the consent penalty. -/
def highCount : List Detection → Nat
  | [] => 0
  | d :: ds =>
    (if d.sensitivity_tier = Tier.alto then d.occurrence_count else 0)
      + highCount ds

/-- Modelled from the spec: fixed weight of the consent penalty (§4.6), a
configuration value. -/
def consentPenaltyWeight : ℚ := 5

/-- Modelled from the spec: when consent is missing or revoked, an
additional fixed penalty proportional to the count of high-tier detections
(§4.6); no penalty when consent is valid. -/
def consentPenalty (st : ConsentStatus) (dets : List Detection) : ℚ :=
  match st with
  | .valid => 0
  | .missing => consentPenaltyWeight * highCount dets
  | .revoked => consentPenaltyWeight * highCount dets

/-- Clamp the raw score to the interval [0, 100] (§4.6). -/
def clampScore (x : ℚ) : ℚ :=
  if x ≤ 0 then 0 else if 100 ≤ x then 100 else x

/-- Modelled from the spec: the Compliance Scorer (§4.6) — start at 100,
subtract the tier-weighted diminishing per-type penalties and the consent
penalty, clamp to [0, 100].  The backend scorer is not among the source
files. -/
def computeScore (dets : List Detection) (st : ConsentStatus) : ℚ :=
  clampScore (100 - penaltySum dets - consentPenalty st dets)

/-- Risk tier from fixed score thresholds (§4.6), using the tier labels the
frontend `LGPDReport` colour map expects (CRÍTICO / ALTO / MÉDIO /
BAIXO). -/
def riskLevel (score : ℚ) : String :=
  if 75 ≤ score then "BAIXO"
  else if 50 ≤ score then "MÉDIO"
  else if 25 ≤ score then "ALTO"
  else "CRÍTICO"

/-- Structured content of the narrative: detected types, checked-but-absent
types, and the degraded flag for the Entity Recognizer fallback. -/
structure NarrativeInfo where
  detectedTypes : List String
  notFound : List String
  degraded : Bool
deriving DecidableEq, Repr

/-- Narrative content from the detections: `detected=true` types and
checked-but-absent types, kept separate (§4.7). -/
def narrativeInfo (dets : List Detection) (degraded : Bool) : NarrativeInfo :=
  { detectedTypes := (dets.filter (fun d => d.detected)).map
      (fun d => d.pii_type)
    notFound := (dets.filter (fun d => !d.detected)).map (fun d => d.pii_type)
    degraded := degraded }

/-- Comma-separated rendering of a type list, as in the `data_analysis`
examples of `docs/pii_detection_report.md`. -/
def joinTypes : List String → String
  | [] => ""
  | [t] => t
  | t :: ts => t ++ ", " ++ joinTypes ts

/-- Modelled from the spec: the deterministic narrative string, following
the `data_analysis` examples of `docs/pii_detection_report.md`, with the
degradation marker of spec §4.2 appended when the Entity Recognizer was
unavailable. -/
def renderNarrative (total : Nat) (info : NarrativeInfo) : String :=
  let base :=
    if total = 0 then
      "Nenhuma instância de dados pessoais foi detectada nesta ingestão. "
        ++ "Os seguintes tipos de PII foram verificados: "
        ++ joinTypes (info.detectedTypes ++ info.notFound)
        ++ ". Nenhum deles foi encontrado no conteúdo analisado."
    else
      "A ingestão contém " ++ toString total
        ++ " instâncias de dados pessoais. Tipos detectados: "
        ++ joinTypes info.detectedTypes
        ++ ". Tipos verificados mas não detectados: "
        ++ joinTypes info.notFound ++ "."
  if info.degraded then
    base ++ " Reconhecimento de entidades degradado."
  else base

/-- Modelled from the spec: recommendations from a lookup keyed by
(sensitivity tier present, consent status) pairs (§4.6), not freeform
generation. -/
def recommendationsFor (dets : List Detection) (st : ConsentStatus) :
    List String :=
  (match st with
   | .missing => ["Obter consentimento do titular antes do processamento"]
   | .revoked => ["Interromper processamento: consentimento revogado"]
   | .valid => [])
  ++ (if dets.any (fun d => d.detected && decide (d.sensitivity_tier = Tier.alto))
      then ["Aplicar mascaramento e controle de acesso a dados de alta sensibilidade"]
      else [])

/-- The `ComplianceReport` of the data model (§3): score, risk tier, per-type
counts of detected types, full detection sequence over all checked types,
consent status, recommendations, and the deterministic narrative. -/
structure ComplianceReport where
  compliance_score : ℚ
  risk_level : String
  pii_types_detected : List (String × Nat)
  total_pii_instances : Nat
  pii_details : List Detection
  consent_status : ConsentStatus
  recommendations : List String
  narrative_info : NarrativeInfo
  narrative : String
deriving DecidableEq, Repr

/-- Entity candidates from the recognizer outcome: none when the capability
errored (§4.2 fallback). -/
def nerEntities (ner : Except Unit (List Entity)) : List Entity :=
  match ner with
  | .ok l => l
  | .error _ => []

/-- Whether the Entity Recognizer outcome degrades the run (§4.2). -/
def nerDegraded (ner : Except Unit (List Entity)) : Bool :=
  match ner with
  | .ok _ => false
  | .error _ => true

/-- Modelled from the spec: the full engine run (§2 control flow) — pattern
and entity detection, aggregation, scoring against the consent snapshot, and
pure report assembly.  An `Except.error` recognizer outcome is the
`DetectionCapabilityUnavailable` case of §7: the run continues with
pattern-only detection and the narrative is flagged as degraded. -/
def runEngine (registry : List RegistryEntry) (fields : List String)
    (ner : Except Unit (List Entity)) (st : ConsentStatus) :
    ComplianceReport :=
  let ents := nerEntities ner
  let degraded := nerDegraded ner
  let dets := aggregate registry fields ents
  let total := (dets.map (fun d => d.occurrence_count)).sum
  let score := computeScore dets st
  let info := narrativeInfo dets degraded
  { compliance_score := score
    risk_level := riskLevel score
    pii_types_detected := (dets.filter (fun d => d.detected)).map
      (fun d => (d.pii_type, d.occurrence_count))
    total_pii_instances := total
    pii_details := dets
    consent_status := st
    recommendations := recommendationsFor dets st
    narrative_info := info
    narrative := renderNarrative total info }

/-- Modelled from the spec: the engine entry point with the fatal error path
of §7 — a `TokenStoreWriteFailure` aborts the run, every other failure
degrades gracefully inside `runEngine`. -/
def runEngineExc (registry : List RegistryEntry) (fields : List String)
    (ner : Except Unit (List Entity)) (st : ConsentStatus)
    (tokenStoreOk : Bool) : Except String ComplianceReport :=
  if tokenStoreOk then .ok (runEngine registry fields ner st)
  else .error "TokenStoreWriteFailure"

/-- A reversible token, opaque to consumers: the owning ingestion scope plus
a per-run serial index (spec §4.4, §9). -/
structure Token where
  ingestion : String
  idx : Nat
deriving DecidableEq, Repr

/-- One `TokenMapping` of the data model (§3): token, owning ingestion,
encrypted original value, PII type. -/
structure TokenMapping where
  token : Token
  ingestion_id : String
  ciphertext : List Nat
  pii_type : String
deriving DecidableEq, Repr

/-- Modelled from the spec: encryption at rest of the original value
(§3 `TokenMapping.ciphertext`) — a keyed, injective code-point shift. -/
def encryptValue (key : Nat) (v : String) : List Nat :=
  v.toList.map (fun c => c.toNat + key)

/-- Modelled from the spec: decryption of a `TokenMapping` ciphertext back
to the original raw value. -/
def decryptValue (key : Nat) (ct : List Nat) : String :=
  String.mk (ct.map (fun n => Char.ofNat (n - key)))

/-- The mapping registered for the value at serial position `i` of a masking
run (§4.4). -/
def buildMapping (ing : String) (key : Nat) (i : Nat) (p : String × String) :
    TokenMapping :=
  { token := ⟨ing, i⟩
    ingestion_id := ing
    ciphertext := encryptValue key p.1
    pii_type := p.2 }

/-- Modelled from the spec: the Masking Engine run over the confirmed raw
values (value, pii_type) of one ingestion, minting one fresh token per value
from the serial counter `i` (§4.4; writes are serialized per ingestion,
§5). -/
def maskRunAux (ing : String) (key : Nat) :
    Nat → List (String × String) → List TokenMapping
  | _, [] => []
  | i, p :: rest => buildMapping ing key i p :: maskRunAux ing key (i + 1) rest

/-- Masking run of one ingestion, starting the token serial at 0. -/
def maskRun (ing : String) (key : Nat) (values : List (String × String)) :
    List TokenMapping :=
  maskRunAux ing key 0 values

/-- The `Consentimento` record of the frontend
(`ConsentimentoViewer` in `frontend/components/features/LGPDQuickAccess.tsx`),
restricted to the fields its status logic reads; dates are modelled as
numeric timestamps. -/
structure Consentimento where
  consentimento_dado : Bool
  revogado : Bool
  data_consentimento : Option Nat
  data_revogacao : Option Nat
  data_expiracao : Option Nat
deriving DecidableEq, Repr

/-- `isValid` of `ConsentimentoViewer`
(`frontend/components/features/LGPDQuickAccess.tsx`, line 133):
`data.consentimento_dado && !data.revogado`. -/
def consentimentoIsValid (c : Consentimento) : Bool :=
  c.consentimento_dado && !c.revogado

/-- A consent record is expired at time `now` when its `data_expiracao` lies
in the past. -/
def isExpiredAt (c : Consentimento) (now : Nat) : Bool :=
  match c.data_expiracao with
  | some e => decide (e < now)
  | none => false

/-- Consent box style of `LGPDReport`
(`frontend/components/features/LGPDReport.tsx`, lines 137-141): green for
`valid`, yellow for `missing`, red for everything else. -/
def consentBoxClass (s : String) : String :=
  if s = "valid" then "bg-green-50 border border-green-200"
  else if s = "missing" then "bg-yellow-50 border border-yellow-200"
  else "bg-red-50 border border-red-200"

/-- Consent label of `LGPDReport`
(`frontend/components/features/LGPDReport.tsx`, lines 142-146): any status
other than `valid` and `missing` renders as revoked. -/
def consentLabel (s : String) : String :=
  if s = "valid" then "✓ Consentimento Válido"
  else if s = "missing" then "⚠ Consentimento Ausente"
  else "✗ Consentimento Revogado"

/-- The CPF entry of the documented registry
(`docs/pii_detection_report.md`: CPF is ALTO sensitivity, matched by the
documented regex). -/
def cpfEntry : RegistryEntry :=
  { name := "cpf", tier := Tier.alto, matcher := cpfShape }


lemma aggregate_map_name (registry : List RegistryEntry) (fields : List String)
    (ents : List Entity) :
    (aggregate registry fields ents).map Detection.pii_type
      = registry.map RegistryEntry.name := by
  simp [aggregate, List.map_map]
  intro a _
  rfl

/-- C2: for a registry of N configured PII types, the report's detections
array has exactly N entries — one per registered type — and the sequence of
`pii_type` values enumerated is exactly the registry, never growing or
shrinking based on what was found. -/
theorem registry_coverage (registry : List RegistryEntry) (fields : List String)
    (ner : Except Unit (List Entity)) (st : ConsentStatus) :
    (runEngine registry fields ner st).pii_details.length = registry.length
      ∧ (runEngine registry fields ner st).pii_details.map Detection.pii_type
          = registry.map RegistryEntry.name := by
  constructor
  · show (aggregate registry fields (nerEntities ner)).length = registry.length
    simp [aggregate]
  · exact aggregate_map_name registry fields (nerEntities ner)

/-- C1: every entry of the per-type detail array of a compliance report
carries the `detected` boolean — `false` when the occurrence count is 0,
`true` when positive — and an entry exists for every registered (checked)
type and only for registered types, so checked-but-absent is distinguishable
from never-checked. -/
theorem detected_field_discipline (registry : List RegistryEntry)
    (fields : List String) (ner : Except Unit (List Entity))
    (st : ConsentStatus) :
    (∀ e ∈ registry, ∃ d ∈ (runEngine registry fields ner st).pii_details,
        d.pii_type = e.name ∧ (d.occurrence_count = 0 → d.detected = false)
          ∧ (0 < d.occurrence_count → d.detected = true))
      ∧ ∀ d ∈ (runEngine registry fields ner st).pii_details,
          ∃ e ∈ registry, d.pii_type = e.name := by
  constructor
  · intro e he
    refine ⟨aggregateOne registry fields (nerEntities ner) e, ?_, rfl, ?_, ?_⟩
    · exact List.mem_map_of_mem _ he
    · intro h0
      simp [aggregateOne] at h0 ⊢
      omega
    · intro hpos
      simp [aggregateOne] at hpos ⊢
      omega
  · intro d hd
    simp only [runEngine, aggregate, List.mem_map] at hd
    obtain ⟨e, he, rfl⟩ := hd
    exact ⟨e, he, rfl⟩

/-- C7: when the Entity Recognizer capability errors, the engine still
completes the run (the request succeeds as a whole), detection is
pattern-only, and the narrative marks the run as degraded — the failure is
never fatal. -/
theorem degraded_fallback (registry : List RegistryEntry) (fields : List String)
    (st : ConsentStatus) :
    runEngineExc registry fields (Except.error ()) st true
        = Except.ok (runEngine registry fields (Except.error ()) st)
      ∧ (runEngine registry fields (Except.error ()) st).narrative_info.degraded
          = true
      ∧ (runEngine registry fields (Except.error ()) st).pii_details
          = aggregate registry fields [] := by
  exact ⟨rfl, rfl, rfl⟩

/-- C8: the engine is deterministic and report assembly is pure — two runs
on byte-identical input with the same ingestion context and consent state
produce identical `ComplianceReport`s in every field. -/
theorem engine_deterministic (r1 r2 : List RegistryEntry)
    (f1 f2 : List String) (n1 n2 : Except Unit (List Entity))
    (s1 s2 : ConsentStatus) (hr : r1 = r2) (hf : f1 = f2) (hn : n1 = n2)
    (hs : s1 = s2) :
    runEngine r1 f1 n1 s1 = runEngine r2 f2 n2 s2 := by
  subst hr hf hn hs
  rfl

theorem engine_deterministic_witness :
    runEngine [cpfEntry] ["abc"] (Except.ok []) ConsentStatus.valid
      = runEngine [cpfEntry] ["abc"] (Except.ok []) ConsentStatus.valid :=
  engine_deterministic _ _ _ _ _ _ _ _ rfl rfl rfl rfl

/-- C10: in the LGPD report view, every `consent_status` other than the
exact strings "valid" and "missing" — including "expired" — is rendered as
revoked consent (the red error styling with the "Consentimento Revogado"
label), so an expired consent is indistinguishable from a revoked one at the
report surface. -/
theorem consent_render_fallback (s : String) (h1 : s ≠ "valid")
    (h2 : s ≠ "missing") :
    consentLabel s = "✗ Consentimento Revogado"
      ∧ consentBoxClass s = "bg-red-50 border border-red-200" := by
  unfold consentLabel consentBoxClass
  rw [if_neg h1, if_neg h2, if_neg h1, if_neg h2]
  exact ⟨rfl, rfl⟩

theorem consent_render_fallback_witness :
    ("expired" ≠ "valid") ∧ ("expired" ≠ "missing")
      ∧ consentLabel "expired" = "✗ Consentimento Revogado"
      ∧ consentBoxClass "expired" = "bg-red-50 border border-red-200" :=
  ⟨by decide, by decide,
    (consent_render_fallback "expired" (by decide) (by decide)).1,
    (consent_render_fallback "expired" (by decide) (by decide)).2⟩

/-- C4 counterexample: a granted, non-revoked consent record whose
expiration date lies in the past is still classified as valid by the
frontend `isValid` check, refuting "a granted but expired consent is never
classified as valid". -/
theorem expired_consent_counterexample :
    consentimentoIsValid
        { consentimento_dado := true, revogado := false,
          data_consentimento := some 0, data_revogacao := none,
          data_expiracao := some 10 } = true
      ∧ isExpiredAt
          { consentimento_dado := true, revogado := false,
            data_consentimento := some 0, data_revogacao := none,
            data_expiracao := some 10 } 100 = true := by
  decide

/-- C4 amended: the consent view classifies a record as valid exactly when
it was granted and not revoked; the expiration date is ignored entirely, so
a granted, non-revoked but expired consent is classified as valid. -/
theorem consent_valid_ignores_expiration (c : Consentimento) :
    (consentimentoIsValid c = true
        ↔ c.consentimento_dado = true ∧ c.revogado = false)
      ∧ ∀ d : Option Nat,
          consentimentoIsValid { c with data_expiracao := d }
            = consentimentoIsValid c := by
  constructor
  · simp [consentimentoIsValid]
  · intro d
    rfl


/-- C3 counterexample: "123.456.789-00" matches the documented CPF shape
but fails the CPF checksum, and the Pattern Detector nevertheless reports a
CPF detection for it — refuting "values failing the checksum produce no
detection". -/
theorem checksum_counterexample :
    cpfShape "123.456.789-00" = true
      ∧ cpfChecksumValid "123.456.789-00" = false
      ∧ patternCount cpfEntry ["123.456.789-00"] = 1
      ∧ (aggregateOne [cpfEntry] ["123.456.789-00"] [] cpfEntry).detected
          = true := by
  decide

/-- C3 amended: the Pattern Detector matches by shape alone — every value
matching a registered pattern's shape is reported with `detected=true`,
whether or not any checksum validates (the documented registry applies no
checksum validation). -/
theorem shape_only_detection (registry : List RegistryEntry)
    (fields : List String) (ents : List Entity) (st : ConsentStatus)
    (e : RegistryEntry) (he : e ∈ registry)
    (hmatch : ∃ f ∈ fields, e.matcher f = true) :
    ∃ d ∈ (runEngine registry fields (Except.ok ents) st).pii_details,
      d.pii_type = e.name ∧ d.detected = true ∧ 0 < d.occurrence_count := by
  refine ⟨aggregateOne registry fields ents e, List.mem_map_of_mem _ he,
    rfl, ?_, ?_⟩
  · obtain ⟨f, hf, hm⟩ := hmatch
    have hpos : 0 < patternCount e fields := by
      have : f ∈ fields.filter e.matcher := List.mem_filter.mpr ⟨hf, hm⟩
      exact List.length_pos.mpr (List.ne_nil_of_mem this)
    simp [aggregateOne]
    omega
  · obtain ⟨f, hf, hm⟩ := hmatch
    have hpos : 0 < patternCount e fields := by
      have : f ∈ fields.filter e.matcher := List.mem_filter.mpr ⟨hf, hm⟩
      exact List.length_pos.mpr (List.ne_nil_of_mem this)
    show 0 < patternCount e fields + nerCount registry e ents
    omega

theorem shape_only_detection_witness :
    (cpfEntry ∈ [cpfEntry])
      ∧ (∃ f ∈ ["123.456.789-00"], cpfEntry.matcher f = true)
      ∧ ∃ d ∈ (runEngine [cpfEntry] ["123.456.789-00"] (Except.ok [])
            ConsentStatus.valid).pii_details,
          d.pii_type = "cpf" ∧ d.detected = true ∧ 0 < d.occurrence_count :=
  ⟨List.mem_singleton.mpr rfl,
    ⟨"123.456.789-00", List.mem_singleton.mpr rfl, by decide⟩,
    shape_only_detection [cpfEntry] ["123.456.789-00"] [] ConsentStatus.valid
      cpfEntry (List.mem_singleton.mpr rfl)
      ⟨"123.456.789-00", List.mem_singleton.mpr rfl, by decide⟩⟩


lemma decrypt_encrypt (key : Nat) (v : String) :
    decryptValue key (encryptValue key v) = v := by
  have h : ∀ c : Char, Char.ofNat (c.toNat + key - key) = c := fun c => by
    rw [Nat.add_sub_cancel, Char.ofNat_toNat]
  cases v with
  | mk l =>
    simp only [decryptValue, encryptValue, String.toList, List.map_map]
    congr 1
    have hcomp : ((fun n => Char.ofNat (n - key)) ∘ fun c : Char => c.toNat + key)
        = id := by
      funext c
      simp [Function.comp, h c]
    rw [hcomp, List.map_id]

lemma mem_maskRunAux {ing : String} {key : Nat} :
    ∀ (i : Nat) (vs : List (String × String)) (m : TokenMapping),
      m ∈ maskRunAux ing key i vs
        ↔ ∃ j, ∃ h : j < vs.length,
            m = buildMapping ing key (i + j) (vs.get ⟨j, h⟩) := by
  intro i vs
  induction vs generalizing i with
  | nil => simp [maskRunAux]
  | cons p rest ih =>
    intro m
    simp only [maskRunAux, List.mem_cons, ih (i + 1)]
    constructor
    · rintro (rfl | ⟨j, hj, rfl⟩)
      · exact ⟨0, by simp, by simp⟩
      · exact ⟨j + 1, by simpa using hj, by simp [Nat.add_assoc, Nat.add_comm 1 j]⟩
    · rintro ⟨j, hj, rfl⟩
      cases j with
      | zero => left; simp
      | succ j =>
        right
        refine ⟨j, by simpa using hj, ?_⟩
        simp [Nat.add_assoc, Nat.add_comm 1 j]

/-- C5: masking is a round-trip — decrypting the `TokenMapping` of any
token emitted in a run yields exactly the original raw value that produced
it; each token is unique within its ingestion scope and resolves to exactly
one mapping, and tokens are never reused across ingestions. -/
theorem masking_roundtrip (ing ing2 : String) (key : Nat)
    (vs vs2 : List (String × String)) (hne : ing ≠ ing2) :
    (∀ m ∈ maskRun ing key vs, ∃ p ∈ vs,
        m.ciphertext = encryptValue key p.1
          ∧ decryptValue key m.ciphertext = p.1 ∧ m.pii_type = p.2)
      ∧ (∀ m1 ∈ maskRun ing key vs, ∀ m2 ∈ maskRun ing key vs,
          m1.token = m2.token → m1 = m2)
      ∧ ∀ m1 ∈ maskRun ing key vs, ∀ m2 ∈ maskRun ing2 key vs2,
          m1.token ≠ m2.token := by
  refine ⟨?_, ?_, ?_⟩
  · intro m hm
    rw [maskRun, mem_maskRunAux] at hm
    obtain ⟨j, hj, rfl⟩ := hm
    exact ⟨vs.get ⟨j, hj⟩, List.get_mem vs j hj, rfl,
      decrypt_encrypt key _, rfl⟩
  · intro m1 hm1 m2 hm2 htok
    rw [maskRun, mem_maskRunAux] at hm1 hm2
    obtain ⟨j1, hj1, rfl⟩ := hm1
    obtain ⟨j2, hj2, rfl⟩ := hm2
    have : j1 = j2 := by
      have := congrArg Token.idx htok
      simpa [buildMapping] using this
    subst this
    rfl
  · intro m1 hm1 m2 hm2
    rw [maskRun, mem_maskRunAux] at hm1 hm2
    obtain ⟨j1, hj1, rfl⟩ := hm1
    obtain ⟨j2, hj2, rfl⟩ := hm2
    intro htok
    exact hne (congrArg Token.ingestion htok)

theorem masking_roundtrip_witness :
    ("ing-a" ≠ "ing-b")
      ∧ ((∀ m ∈ maskRun "ing-a" 3 [("maria@x.com", "email")], ∃ p ∈ [("maria@x.com", "email")],
            m.ciphertext = encryptValue 3 p.1
              ∧ decryptValue 3 m.ciphertext = p.1 ∧ m.pii_type = p.2)
          ∧ (∀ m1 ∈ maskRun "ing-a" 3 [("maria@x.com", "email")],
              ∀ m2 ∈ maskRun "ing-a" 3 [("maria@x.com", "email")],
                m1.token = m2.token → m1 = m2)
          ∧ ∀ m1 ∈ maskRun "ing-a" 3 [("maria@x.com", "email")],
              ∀ m2 ∈ maskRun "ing-b" 3 [], m1.token ≠ m2.token) :=
  ⟨by decide,
    masking_roundtrip "ing-a" "ing-b" 3 [("maria@x.com", "email")] []
      (by decide)⟩


lemma tierWeight_nonneg (t : Tier) : 0 ≤ tierWeight t := by
  cases t <;> norm_num [tierWeight]

lemma typePenalty_nonneg {w : ℚ} (hw : 0 ≤ w) (n : Nat) :
    0 ≤ typePenalty w n := by
  induction n with
  | zero => simp [typePenalty]
  | succ n ih =>
    have hstep : 0 ≤ w / 2 ^ n := by positivity
    simp only [typePenalty]
    linarith

lemma typePenalty_le_succ {w : ℚ} (hw : 0 ≤ w) (n : Nat) :
    typePenalty w n ≤ typePenalty w (n + 1) := by
  have hstep : 0 ≤ w / 2 ^ n := by positivity
  simp only [typePenalty]
  linarith

lemma penaltySum_nonneg (dets : List Detection) : 0 ≤ penaltySum dets := by
  induction dets with
  | nil => simp [penaltySum]
  | cons d ds ih =>
    have := typePenalty_nonneg (tierWeight_nonneg d.sensitivity_tier)
      d.occurrence_count
    simp only [penaltySum]
    linarith

lemma consentPenalty_nonneg (st : ConsentStatus) (dets : List Detection) :
    0 ≤ consentPenalty st dets := by
  cases st with
  | valid => simp [consentPenalty]
  | missing =>
    simp only [consentPenalty, consentPenaltyWeight]
    positivity
  | revoked =>
    simp only [consentPenalty, consentPenaltyWeight]
    positivity

lemma clampScore_nonneg (x : ℚ) : 0 ≤ clampScore x := by
  unfold clampScore
  split_ifs with h1 h2
  · norm_num
  · norm_num
  · push_neg at h1
    linarith

lemma clampScore_le_100 (x : ℚ) : clampScore x ≤ 100 := by
  unfold clampScore
  split_ifs with h1 h2
  · norm_num
  · norm_num
  · push_neg at h2
    linarith

lemma clampScore_mono {x y : ℚ} (h : x ≤ y) : clampScore x ≤ clampScore y := by
  unfold clampScore
  split_ifs <;> try push_neg at *
  all_goals linarith

lemma penaltySum_append (l1 l2 : List Detection) :
    penaltySum (l1 ++ l2) = penaltySum l1 + penaltySum l2 := by
  induction l1 with
  | nil => simp [penaltySum]
  | cons d ds ih =>
    simp only [List.cons_append, penaltySum, List.append_eq] at ih ⊢
    rw [ih]
    ring

lemma highCount_append (l1 l2 : List Detection) :
    highCount (l1 ++ l2) = highCount l1 + highCount l2 := by
  induction l1 with
  | nil => simp [highCount]
  | cons d ds ih =>
    simp only [List.cons_append, highCount, List.append_eq] at ih ⊢
    rw [ih]
    omega

/-- C6: the compliance score always lies in [0, 100], and, holding all
other inputs constant, it is monotonically non-increasing as the count of
high-sensitivity detections increases while consent is missing or
revoked. -/
theorem score_bounds_and_monotone (registry : List RegistryEntry)
    (fields : List String) (ner : Except Unit (List Entity))
    (st st2 : ConsentStatus) (pre post : List Detection) (d : Detection)
    (htier : d.sensitivity_tier = Tier.alto)
    (hst : st2 ≠ ConsentStatus.valid) :
    (0 ≤ (runEngine registry fields ner st).compliance_score
        ∧ (runEngine registry fields ner st).compliance_score ≤ 100)
      ∧ computeScore
            (pre ++ { d with occurrence_count := d.occurrence_count + 1,
                             detected := true } :: post) st2
          ≤ computeScore (pre ++ d :: post) st2 := by
  refine ⟨⟨clampScore_nonneg _, clampScore_le_100 _⟩, ?_⟩
  set d2 : Detection :=
    { d with occurrence_count := d.occurrence_count + 1, detected := true }
    with hd2
  have hw : 0 ≤ tierWeight d.sensitivity_tier :=
    tierWeight_nonneg d.sensitivity_tier
  have htier2 : d2.sensitivity_tier = d.sensitivity_tier := rfl
  have hcnt2 : d2.occurrence_count = d.occurrence_count + 1 := rfl
  have hpen : penaltySum (pre ++ d :: post)
      ≤ penaltySum (pre ++ d2 :: post) := by
    have hstep := typePenalty_le_succ hw d.occurrence_count
    rw [penaltySum_append, penaltySum_append]
    simp only [penaltySum, htier2, hcnt2]
    linarith
  have hhigh : highCount (pre ++ d :: post)
      ≤ highCount (pre ++ d2 :: post) := by
    rw [highCount_append, highCount_append]
    simp only [highCount, htier2, hcnt2, htier]
    simp
  have hcons : consentPenalty st2 (pre ++ d :: post)
      ≤ consentPenalty st2 (pre ++ d2 :: post) := by
    cases st2 with
    | valid => exact absurd rfl hst
    | missing =>
      simp only [consentPenalty, consentPenaltyWeight]
      have : (highCount (pre ++ d :: post) : ℚ)
          ≤ highCount (pre ++ d2 :: post) := by exact_mod_cast hhigh
      linarith
    | revoked =>
      simp only [consentPenalty, consentPenaltyWeight]
      have : (highCount (pre ++ d :: post) : ℚ)
          ≤ highCount (pre ++ d2 :: post) := by exact_mod_cast hhigh
      linarith
  apply clampScore_mono
  linarith

theorem score_bounds_and_monotone_witness :
    (({ pii_type := "cpf", occurrence_count := 1, masked_samples := [],
        sensitivity_tier := Tier.alto, detected := true } : Detection).sensitivity_tier
        = Tier.alto)
      ∧ (ConsentStatus.missing ≠ ConsentStatus.valid)
      ∧ ((0 ≤ (runEngine [cpfEntry] [] (Except.ok [])
              ConsentStatus.valid).compliance_score
          ∧ (runEngine [cpfEntry] [] (Except.ok [])
              ConsentStatus.valid).compliance_score ≤ 100)
        ∧ computeScore
              [{ pii_type := "cpf", occurrence_count := 2, masked_samples := [],
                 sensitivity_tier := Tier.alto, detected := true }]
              ConsentStatus.missing
            ≤ computeScore
                [{ pii_type := "cpf", occurrence_count := 1, masked_samples := [],
                   sensitivity_tier := Tier.alto, detected := true }]
                ConsentStatus.missing) :=
  ⟨rfl, by decide,
    score_bounds_and_monotone [cpfEntry] [] (Except.ok [])
      ConsentStatus.valid ConsentStatus.missing [] []
      { pii_type := "cpf", occurrence_count := 1, masked_samples := [],
        sensitivity_tier := Tier.alto, detected := true }
      rfl (by decide)⟩


lemma nerCount_nil (registry : List RegistryEntry) (e : RegistryEntry) :
    nerCount registry e [] = 0 := rfl

lemma aggregate_counts_zero {registry : List RegistryEntry}
    {fields : List String}
    (hz : ∀ e ∈ registry, patternCount e fields = 0) :
    ∀ d ∈ aggregate registry fields [], d.occurrence_count = 0
      ∧ d.detected = false := by
  intro d hd
  simp only [aggregate, List.mem_map] at hd
  obtain ⟨e, he, rfl⟩ := hd
  have hc : patternCount e fields + nerCount registry e [] = 0 := by
    rw [hz e he, nerCount_nil]
  constructor
  · exact hc
  · show decide (0 < patternCount e fields + nerCount registry e []) = false
    rw [hc]
    rfl

lemma penaltySum_zero {dets : List Detection}
    (h : ∀ d ∈ dets, d.occurrence_count = 0) : penaltySum dets = 0 := by
  induction dets with
  | nil => rfl
  | cons d ds ih =>
    have hd := h d (List.mem_cons_self d ds)
    simp only [penaltySum, hd, typePenalty]
    rw [ih (fun x hx => h x (List.mem_cons_of_mem d hx))]
    ring

lemma highCount_zero {dets : List Detection}
    (h : ∀ d ∈ dets, d.occurrence_count = 0) : highCount dets = 0 := by
  induction dets with
  | nil => rfl
  | cons d ds ih =>
    have hd := h d (List.mem_cons_self d ds)
    simp only [highCount, hd]
    rw [ih (fun x hx => h x (List.mem_cons_of_mem d hx))]
    simp

/-- C9: for an input in which no registered pattern matches any field and
the recognizer finds nothing, the report has `total_pii_instances = 0`,
`compliance_score = 100`, the lowest risk tier, and a narrative whose
checked-but-absent list names all N registered types (and no detected
types). -/
theorem no_pii_clean_report (registry : List RegistryEntry)
    (fields : List String) (st : ConsentStatus)
    (hz : ∀ e ∈ registry, patternCount e fields = 0) :
    (runEngine registry fields (Except.ok []) st).total_pii_instances = 0
      ∧ (runEngine registry fields (Except.ok []) st).compliance_score = 100
      ∧ (runEngine registry fields (Except.ok []) st).risk_level = "BAIXO"
      ∧ (runEngine registry fields (Except.ok []) st).narrative_info.notFound
          = registry.map RegistryEntry.name
      ∧ (runEngine registry fields (Except.ok []) st).narrative_info.detectedTypes
          = [] := by
  have hag := aggregate_counts_zero hz
  have hents : nerEntities (Except.ok ([] : List Entity)) = [] := rfl
  have hcnt : ∀ d ∈ aggregate registry fields [], d.occurrence_count = 0 :=
    fun d hd => (hag d hd).1
  have hdet : ∀ d ∈ aggregate registry fields [], d.detected = false :=
    fun d hd => (hag d hd).2
  refine ⟨?_, ?_, ?_, ?_, ?_⟩
  · show ((aggregate registry fields []).map
        (fun d => d.occurrence_count)).sum = 0
    apply List.sum_eq_zero
    intro x hx
    simp only [List.mem_map] at hx
    obtain ⟨d, hd, rfl⟩ := hx
    exact hcnt d hd
  · show computeScore (aggregate registry fields []) st = 100
    unfold computeScore
    rw [penaltySum_zero hcnt]
    have hc : consentPenalty st (aggregate registry fields []) = 0 := by
      cases st with
      | valid => rfl
      | missing =>
        simp [consentPenalty, highCount_zero hcnt]
      | revoked =>
        simp [consentPenalty, highCount_zero hcnt]
    rw [hc]
    norm_num [clampScore]
  · show riskLevel (computeScore (aggregate registry fields []) st) = "BAIXO"
    have : computeScore (aggregate registry fields []) st = 100 := by
      unfold computeScore
      rw [penaltySum_zero hcnt]
      have hc : consentPenalty st (aggregate registry fields []) = 0 := by
        cases st with
        | valid => rfl
        | missing => simp [consentPenalty, highCount_zero hcnt]
        | revoked => simp [consentPenalty, highCount_zero hcnt]
      rw [hc]
      norm_num [clampScore]
    rw [this]
    norm_num [riskLevel]
  · show ((aggregate registry fields []).filter
        (fun d => !d.detected)).map (fun d => d.pii_type)
          = registry.map RegistryEntry.name
    have hfil : (aggregate registry fields []).filter (fun d => !d.detected)
        = aggregate registry fields [] := by
      apply List.filter_eq_self.mpr
      intro d hd
      rw [hdet d hd]
      rfl
    rw [hfil]
    have := aggregate_map_name registry fields []
    simpa using this
  · show ((aggregate registry fields []).filter
        (fun d => d.detected)).map (fun d => d.pii_type) = []
    have hfil : (aggregate registry fields []).filter (fun d => d.detected)
        = [] := by
      apply List.filter_eq_nil_iff.mpr
      intro d hd
      rw [hdet d hd]
      simp
    rw [hfil]
    rfl

theorem no_pii_clean_report_witness :
    (∀ e ∈ [cpfEntry], patternCount e ["hello world"] = 0)
      ∧ ((runEngine [cpfEntry] ["hello world"] (Except.ok [])
            ConsentStatus.missing).total_pii_instances = 0
        ∧ (runEngine [cpfEntry] ["hello world"] (Except.ok [])
            ConsentStatus.missing).compliance_score = 100
        ∧ (runEngine [cpfEntry] ["hello world"] (Except.ok [])
            ConsentStatus.missing).risk_level = "BAIXO"
        ∧ (runEngine [cpfEntry] ["hello world"] (Except.ok [])
            ConsentStatus.missing).narrative_info.notFound
            = [cpfEntry].map RegistryEntry.name
        ∧ (runEngine [cpfEntry] ["hello world"] (Except.ok [])
            ConsentStatus.missing).narrative_info.detectedTypes = []) :=
  ⟨by
      intro e he
      rw [List.mem_singleton] at he
      subst he
      decide,
    no_pii_clean_report [cpfEntry] ["hello world"] ConsentStatus.missing
      (by
        intro e he
        rw [List.mem_singleton] at he
        subst he
        decide)⟩

end ProspecIA
